import Mathlib

/-!
Verification of the ocserv-panel usage-enforcement engine.

Shallow embedding of the Python sources:
  * `panel/models/user.py`    — the `User` account record and its derived
    properties (`is_expired`, `is_traffic_exceeded`, `needs_traffic_reset`,
    `reset_traffic`);
  * `panel/services/traffic.py` — `TrafficService.update_user_traffic`
    (per-user delta computation, immediate quota enforcement, snapshot
    eviction);
  * `panel/services/quota.py` — `QuotaService.check_quotas`,
    `check_connection_limits`, `_temp_block_ip`, `unblock_ip`,
    `get_blocked_ips`.

Conventions of the embedding:
  * timestamps are integer seconds (`Int`); `timedelta(days = d)` becomes
    `d * 86400` seconds;
  * Python integers are `Int` (arbitrary precision, as in CPython);
  * the occtl output parser (`ocserv.py`, `get_online_users`) stores
    `int(parts[0]) if parts[0].isdigit() else 0` as the session id, so a
    session without a numeric id carries id 0; `if conn_id:` in
    `quota.py` therefore skips exactly the sessions with id 0, and the
    embedding models the id as a plain `Nat` with 0 meaning "unresolved";
  * `conn.get("client_ip")` followed by `if client_ip:` treats a missing
    and an empty address identically, so the embedding uses
    `Option String` with `none` for both;
  * the denylist file `/etc/ocserv/blocked_ips.txt` is a list of stripped
    lines; a missing file reads as `[]` (the code catches
    `FileNotFoundError` and keeps going);
  * external effects (occtl calls, iptables, the file write) are
    represented by explicit call lists and success flags; a raised
    exception inside a `try:` block is modelled by skipping the rest of
    the block, exactly as CPython transfers control to `except`.
-/

namespace OcservPanel

/-- Seconds in one day: `timedelta(days = 1)`. -/
def secondsPerDay : Int := 86400

/-- The fields of `models/user.py` `User` that the enforcement engine
reads or writes. -/
structure UserRec where
  username : String
  /-- Field `max_traffic` in bytes; 0 = unlimited. -/
  maxTraffic : Int
  /-- Field `used_traffic` in bytes. -/
  usedTraffic : Int
  /-- Field `reset_period_days`; 0 = never auto-reset. -/
  resetPeriodDays : Int
  /-- Field `last_reset_date`, `None` if never reset. -/
  lastResetDate : Option Int
  /-- Field `expire_date`, `None` = never expires. -/
  expireDate : Option Int
  /-- Field `max_connections`. -/
  maxConnections : Nat
  isActive : Bool
  isOnline : Bool
  currentConnections : Nat
deriving Repr, DecidableEq

/-- Property `User.is_expired`: `False` when `expire_date` is `None`, else
`datetime.now() > expire_date`. -/
def is_expired (now : Int) (u : UserRec) : Bool :=
  match u.expireDate with
  | none => false
  | some e => now > e

/-- Property `User.is_traffic_exceeded`: `False` when `max_traffic == 0`, else
`used_traffic >= max_traffic`. -/
def is_traffic_exceeded (u : UserRec) : Bool :=
  if u.maxTraffic = 0 then false else u.usedTraffic ≥ u.maxTraffic

/-- Property `User.needs_traffic_reset`: `False` when `reset_period_days <= 0`;
`True` when `last_reset_date is None`; else
`now >= last_reset_date + timedelta(days=reset_period_days)`. -/
def needs_traffic_reset (now : Int) (u : UserRec) : Bool :=
  if u.resetPeriodDays ≤ 0 then false
  else
    match u.lastResetDate with
    | none => true
    | some d => now ≥ d + u.resetPeriodDays * secondsPerDay

/-- Method `User.reset_traffic`: `used_traffic = 0; last_reset_date = now`. -/
def reset_traffic (now : Int) (u : UserRec) : UserRec :=
  { u with usedTraffic := 0, lastResetDate := some now }

/-- The control calls the engine issues through the ocserv adapter
(`services/ocserv.py`). -/
inductive AdapterCall where
  | disconnectUser (username : String)
  | disconnectById (sessionId : Nat)
  | lockUser (username : String)
  | unlockUser (username : String)
deriving Repr, DecidableEq

/-! Traffic Delta Tracker (`services/traffic.py`)

`TrafficService._last_traffic` is a `Dict[str, Dict[str, int]]`; the
embedding is an association list from username to the last-seen
`(rx, tx)` pair, with Python-dict insert-or-overwrite semantics. -/

/-- Read of a Python dict represented as its insertion-ordered item
list: `d.get(k)`.  Dict keys are unique, so taking the first binding is
exact. -/
def dictLookup {β : Type} : List (String × β) → String → Option β
  | [], _ => none
  | p :: rest, k => if p.1 = k then some p.2 else dictLookup rest k

/-- Write to a Python dict: `d[k] = v` overwrites the binding in place
when the key is present (its position is kept) and appends a fresh
binding at the end otherwise.  On unique-key lists — the only ones the
engine ever builds — this is exactly dict assignment. -/
def dictSet {β : Type} : List (String × β) → String → β → List (String × β)
  | [], k, v => [(k, v)]
  | p :: rest, k, v => if p.1 = k then (k, v) :: rest else p :: dictSet rest k v

/-- The in-memory snapshot map `_last_traffic`. -/
abbrev TrafficSnapshot := List (String × (Int × Int))

/-- Read `self._last_traffic.get(username)`. -/
def snapLookup (st : TrafficSnapshot) (k : String) : Option (Int × Int) :=
  dictLookup st k

/-- Write `self._last_traffic[username] = {...}`. -/
def snapSet (st : TrafficSnapshot) (k : String) (v : Int × Int) : TrafficSnapshot :=
  dictSet st k v

/-- Result of one iteration of the `for online_user in online_users`
loop of `update_user_traffic`. -/
structure TrafficStep where
  snap : TrafficSnapshot
  user : UserRec
  delta : Int
  calls : List AdapterCall
deriving Repr, DecidableEq

/-- Source `traffic.py` lines 47–79: one online user's traffic update.
`last = self._last_traffic.get(username, {'rx': 0, 'tx': 0})`;
`delta = max(0, rx - last['rx']) + max(0, tx - last['tx'])`;
if the delta is positive the usage is credited and, when
`max_traffic > 0 and used_traffic >= max_traffic`, the user is
disconnected and locked on the spot; the snapshot is always updated to
the new absolute reading. -/
def update_user_traffic_one (snap : TrafficSnapshot) (u : UserRec) (rx tx : Int) :
    TrafficStep :=
  let last := (snapLookup snap u.username).getD (0, 0)
  let delta := max 0 (rx - last.1) + max 0 (tx - last.2)
  let step : UserRec × List AdapterCall :=
    if 0 < delta then
      let u1 := { u with usedTraffic := u.usedTraffic + delta,
                         isOnline := true, currentConnections := 1 }
      if 0 < u1.maxTraffic ∧ u1.maxTraffic ≤ u1.usedTraffic then
        ({ u1 with isActive := false, isOnline := false, currentConnections := 0 },
         [AdapterCall.disconnectUser u.username, AdapterCall.lockUser u.username])
      else (u1, [])
    else (u, [])
  ⟨snapSet snap u.username (rx, tx), step.1, delta, step.2⟩

/-- Source `traffic.py` lines 92–95: usernames absent from the current poll are
dropped from `_last_traffic`. -/
def evictOffline (snap : TrafficSnapshot) (online : List String) : TrafficSnapshot :=
  snap.filter (fun p => online.contains p.1)

/-! Quota Evaluator (`services/quota.py`, `check_quotas`) -/

/-- One account's outcome of the `for user in users` loop body of
`check_quotas`: the mutated row, the adapter calls issued, and the
`reason` string recorded for the (possible) disconnect log line. -/
structure QuotaResult where
  user : UserRec
  calls : List AdapterCall
  reason : Option String
deriving Repr, DecidableEq

/-- Source `quota.py` lines 146–182, one user of the loop.  Order of the source:
first the auto-reset block (`needs_traffic_reset` → `reset_traffic`,
then the `if not user.is_active` reactivation guard), then the
`is_traffic_exceeded` / `elif is_expired` checks, then
`if should_disconnect and user.is_online` issues disconnect + lock. -/
def check_quota_user (now : Int) (u : UserRec) : QuotaResult :=
  let resetStep : UserRec × List AdapterCall :=
    if needs_traffic_reset now u then
      let ur := reset_traffic now u
      if ur.isActive = false then
        ({ ur with isActive := true }, [AdapterCall.unlockUser ur.username])
      else (ur, [])
    else (u, [])
  let u1 := resetStep.1
  let checkStep : UserRec × Bool × Option String :=
    if is_traffic_exceeded u1 then
      ({ u1 with isActive := false }, true, some "traffic_exceeded")
    else if is_expired now u1 then
      ({ u1 with isActive := false }, true, some "expired")
    else (u1, false, none)
  let u2 := checkStep.1
  let disconnectCalls : List AdapterCall :=
    if checkStep.2.1 ∧ u2.isOnline then
      [AdapterCall.disconnectUser u2.username, AdapterCall.lockUser u2.username]
    else []
  ⟨u2, resetStep.2 ++ disconnectCalls, checkStep.2.2⟩

/-- Source `quota.py` lines 136–184, the whole quota tick.  The SQL query
`select(User).where(User.is_active == True)` selects only the active
rows: an inactive row is never loaded and therefore never touched.  The
result pairs the table after the tick with every adapter call issued,
in loop order. -/
def check_quotas (now : Int) (users : List UserRec) : List UserRec × List AdapterCall :=
  match users with
  | [] => ([], [])
  | u :: rest =>
    let tail := check_quotas now rest
    if u.isActive then
      let r := check_quota_user now u
      (r.user :: tail.1, r.calls ++ tail.2)
    else (u :: tail.1, tail.2)

/-! Temporary Ban Manager (`services/quota.py`, `_temp_block_ip`,
`unblock_ip`, `get_blocked_ips`) -/

/-- The value stored in `self._blocked_ips[ip]`. -/
structure BlockInfo where
  unblockTime : Int
  blockedAt : Int
  username : String
  reason : String
deriving Repr, DecidableEq

/-- State: the `self._blocked_ips` dict plus the durable denylist file
`/etc/ocserv/blocked_ips.txt` (stripped lines, in order). -/
structure BanState where
  blockedFile : List String
  blockedIps : List (String × BlockInfo)
deriving Repr, DecidableEq

/-- Read `ip in self._blocked_ips` / `self._blocked_ips[ip]`. -/
def ipLookup (m : List (String × BlockInfo)) (k : String) : Option BlockInfo :=
  dictLookup m k

/-- Write `self._blocked_ips[ip] = {...}`: overwrite or append, Python dict
assignment. -/
def ipSet (m : List (String × BlockInfo)) (k : String) (v : BlockInfo) :
    List (String × BlockInfo) :=
  dictSet m k v

/-- Source `quota.py` lines 32–66, `_temp_block_ip(ip, username, seconds)`.
The whole body sits in one `try:`; the denylist append is its first
statement, and the dict store comes after it.  `fileOk = false` models
the append raising: control jumps to `except`, which only logs, so the
dict store never runs and the state is returned unchanged.  On success
the line is appended unconditionally (no membership check) and the
record is stored with `unblock_time = now + seconds`. -/
def temp_block_ip (now : Int) (fileOk : Bool) (st : BanState)
    (ip username : String) (seconds : Int) : BanState :=
  if fileOk then
    { blockedFile := st.blockedFile ++ [ip],
      blockedIps := ipSet st.blockedIps ip
        ⟨now + seconds, now, username, "excess_connections"⟩ }
  else st

/-- Source `quota.py` lines 82–109, `unblock_ip(ip)`: rewrite the denylist
keeping every line whose stripped text differs from `ip` (a missing file
is skipped, which coincides with rewriting `[]`), drop the dict entry if
present, return `True`. -/
def unblock_ip (st : BanState) (ip : String) : BanState × Bool :=
  ({ blockedFile := st.blockedFile.filter (fun line => ¬ line = ip),
     blockedIps := st.blockedIps.filter (fun p => ¬ p.1 = ip) }, true)

/-- One row of the `get_blocked_ips` result. -/
structure BlockedEntry where
  ip : String
  username : String
  blockedAt : Int
  unblockTime : Int
  remainingSeconds : Int
  reason : String
deriving Repr, DecidableEq

/-- Source `quota.py` lines 111–132, `get_blocked_ips()`: scan the dict; an
entry with `unblock_time > now` is surfaced with its remaining seconds,
any other entry is deleted during the scan.  Returns the surfaced rows
and the pruned state. -/
def get_blocked_ips (now : Int) (st : BanState) : List BlockedEntry × BanState :=
  (st.blockedIps.filterMap (fun p =>
      if p.2.unblockTime > now then
        some ⟨p.1, p.2.username, p.2.blockedAt, p.2.unblockTime,
              p.2.unblockTime - now, p.2.reason⟩
      else none),
   { st with blockedIps := st.blockedIps.filter (fun p => p.2.unblockTime > now) })

/-! Connection-Count Limiter (`services/quota.py`,
`check_connection_limits`) -/

/-- Session: one row parsed by `ocserv.py` `get_online_users` and consumed
by the limiter.  `id = 0` stands for occtl output without a numeric id
(the parser's own default); `clientIp = none` stands for a missing or
empty address. -/
structure Conn where
  id : Nat
  username : String
  clientIp : Option String
  connectedAt : Int
deriving Repr, DecidableEq

/-- The sort relation of `sorted(connections, key=lambda x: x.get("id", 0))`. -/
def connLE (a b : Conn) : Prop := a.id ≤ b.id

instance : DecidableRel connLE := fun a b => Nat.decLe a.id b.id

instance : IsTotal Conn connLE := ⟨fun a b => Nat.le_total a.id b.id⟩

instance : IsTrans Conn connLE := ⟨fun _ _ _ => Nat.le_trans⟩

/-- Model of `sorted(connections, key=lambda x: x.get("id", 0))`: Python's sort is
stable and ascending by key, so any stable ascending sort by id is
extensionally the same function; the embedding uses insertion sort
(which is stable). -/
def sortConnsById (conns : List Conn) : List Conn :=
  conns.insertionSort connLE

/-- Source `quota.py` lines 235–251: when the count exceeds `max_connections`,
sort ascending by id and take the last `excess = count - max_connections`
elements (`sorted_connections[-excess_count:]`); otherwise nothing is
selected. -/
def connections_to_disconnect (conns : List Conn) (maxConnections : Nat) :
    List Conn :=
  if maxConnections < conns.length then
    let sorted := sortConnsById conns
    let excess := conns.length - maxConnections
    sorted.drop (sorted.length - excess)
  else []

/-- The sessions the limiter leaves alone: the sorted prefix that
`sorted_connections[-excess_count:]` does not cover. -/
def connections_kept (conns : List Conn) (maxConnections : Nat) : List Conn :=
  if maxConnections < conns.length then
    let sorted := sortConnsById conns
    let excess := conns.length - maxConnections
    sorted.take (sorted.length - excess)
  else conns

/-- Source `quota.py` lines 253–265, the `for conn in connections_to_disconnect`
loop: skip a session with no id (`if conn_id:`), call
`disconnect_by_id` (success given by the oracle `discOk`), and on
success block the client address — when there is one — for 86400
seconds.  Returns the ban state after the loop and the ids whose
disconnect was issued and succeeded. -/
def process_disconnects (now : Int) (username : String) (discOk : Nat → Bool)
    (fileOk : Bool) (toDisconnect : List Conn) (st : BanState) :
    BanState × List Nat :=
  match toDisconnect with
  | [] => (st, [])
  | c :: rest =>
    if c.id ≠ 0 then
      if discOk c.id then
        let st1 :=
          match c.clientIp with
          | some ip => temp_block_ip now fileOk st ip username 86400
          | none => st
        let tail := process_disconnects now username discOk fileOk rest st1
        (tail.1, c.id :: tail.2)
      else process_disconnects now username discOk fileOk rest st
    else process_disconnects now username discOk fileOk rest st

/-- Source `quota.py` lines 230–270: the limiter's treatment of one resolved
username whose user row was found: if the session count exceeds the
row's `max_connections`, run the disconnect loop over the selected
newest sessions. -/
def check_connection_limits_user (now : Int) (discOk : Nat → Bool) (fileOk : Bool)
    (username : String) (conns : List Conn) (u : UserRec) (st : BanState) :
    BanState × List Nat :=
  if u.maxConnections < conns.length then
    process_disconnects now username discOk fileOk
      (connections_to_disconnect conns u.maxConnections) st
  else (st, [])

/-- Source `quota.py` lines 211–228: the `(none)` bucket.  A session reported
under the unresolved marker is force-disconnected by id when it has been
connected for more than 120 seconds (and carries an id); per-account
limiting does not apply.  Returns the ids disconnected. -/
def check_stuck_sessions (now : Int) (conns : List Conn) : List Nat :=
  conns.filterMap (fun c =>
    if 120 < now - c.connectedAt ∧ c.id ≠ 0 then some c.id else none)

/-- Source `app.py` lines 90–107 (`lifespan`) with the intervals of
`config.py`: the scheduler registers three independent periodic jobs;
both the traffic-update job and the quota-check job can issue
quota-triggered disconnect + lock calls. -/
def scheduled_jobs : List (String × Int) :=
  [("traffic_update", 60), ("quota_check", 30), ("connection_limit", 30)]

/-! Helper lemmas about the dict embedding. -/

/-- Looking up the key just written returns the value written. -/
theorem dictLookup_dictSet_self {β : Type} (m : List (String × β)) (k : String) (v : β) :
    dictLookup (dictSet m k v) k = some v := by
  induction m with
  | nil => simp [dictLookup, dictSet]
  | cons p rest ih =>
    by_cases hp : p.1 = k
    · simp [dictLookup, dictSet, hp]
    · simp [dictLookup, dictSet, hp, ih]

/-- Writing one key leaves every other key's binding unchanged. -/
theorem dictLookup_dictSet_ne {β : Type} (m : List (String × β)) (k k' : String) (v : β)
    (h : ¬ k' = k) : dictLookup (dictSet m k v) k' = dictLookup m k' := by
  have h' : ¬ k = k' := fun hh => h hh.symm
  induction m with
  | nil => simp [dictLookup, dictSet, h']
  | cons p rest ih =>
    by_cases hp : p.1 = k
    · have hp' : ¬ p.1 = k' := hp ▸ h'
      simp [dictLookup, dictSet, hp, hp', h']
    · simp [dictLookup, dictSet, hp, ih]

/-- A key without a binding does not occur in the item list. -/
theorem dictLookup_eq_none_iff {β : Type} (m : List (String × β)) (k : String) :
    dictLookup m k = none ↔ ∀ p ∈ m, ¬ p.1 = k := by
  induction m with
  | nil => simp [dictLookup]
  | cons p rest ih =>
    by_cases hp : p.1 = k <;> simp [dictLookup, hp, ih]

/-! Claim theorems. -/

/-- C1, counterexample: the first observation of a username does not
return a delta of 0.  For "alice" first observed at rx = 100, tx = 50,
the code takes `{'rx': 0, 'tx': 0}` as the missing snapshot, returns
delta 150 and adds all 150 pre-tracking bytes to `used_traffic`. -/
theorem first_observation_counterexample :
    (update_user_traffic_one [] ⟨"alice", 0, 0, 0, none, none, 2, true, false, 0⟩ 100 50).delta
      = 150
    ∧ (update_user_traffic_one [] ⟨"alice", 0, 0, 0, none, none, 2, true, false, 0⟩
        100 50).user.usedTraffic = 150 := by
  decide

/-- C1, amended: on the first observation of a username (no snapshot
stored) the tracker stores the reported reading, but the returned delta
is `max 0 rx + max 0 tx` — the full pre-tracking counters, clamped at
0 — not 0; that amount is what gets added to `used_traffic`. -/
theorem first_observation_credits_full_reading
    (snap : TrafficSnapshot) (u : UserRec) (rx tx : Int)
    (h : snapLookup snap u.username = none) :
    (update_user_traffic_one snap u rx tx).delta = max 0 rx + max 0 tx
    ∧ snapLookup (update_user_traffic_one snap u rx tx).snap u.username = some (rx, tx) := by
  constructor
  · simp [update_user_traffic_one, h]
  · simp [update_user_traffic_one, snapLookup, snapSet, dictLookup_dictSet_self]

/-- C1, witness for the amended theorem at a concrete first
observation. -/
theorem first_observation_credits_full_reading_witness :
    snapLookup [] "alice" = none
    ∧ (update_user_traffic_one [] ⟨"alice", 0, 0, 0, none, none, 2, true, false, 0⟩ 100 50).delta
        = max 0 100 + max 0 50 := by
  refine ⟨rfl, ?_⟩
  exact (first_observation_credits_full_reading []
    ⟨"alice", 0, 0, 0, none, none, 2, true, false, 0⟩ 100 50 rfl).1

/-- C2, code-bug exhibit: `check_quotas` loads only rows with
`is_active == True`, so account carol (`reset_period_days = 30`,
`last_reset_date` 31 days ago, `is_active = false`,
`used_traffic = 5000`) — for whom a reset is due — is never examined:
the tick leaves her row unchanged and issues no adapter call, although
the inline comment of the dead `if not user.is_active` branch says a
previously-deactivated user should be reactivated.  The third conjunct
shows the reactivation branch is dead for every input: no quota tick
ever issues an unlock. -/
theorem reset_never_reactivates_locked :
    check_quotas (31 * secondsPerDay)
        [⟨"carol", 10000, 5000, 30, some 0, none, 2, false, false, 0⟩]
      = ([⟨"carol", 10000, 5000, 30, some 0, none, 2, false, false, 0⟩], [])
    ∧ needs_traffic_reset (31 * secondsPerDay)
        ⟨"carol", 10000, 5000, 30, some 0, none, 2, false, false, 0⟩ = true
    ∧ ∀ (now : Int) (users : List UserRec) (name : String),
        AdapterCall.unlockUser name ∉ (check_quotas now users).2 := by
  have hone : ∀ (now : Int) (u : UserRec), u.isActive = true →
      ∀ name, AdapterCall.unlockUser name ∉ (check_quota_user now u).calls := by
    intro now u hu name
    by_cases hr : needs_traffic_reset now u
    · simp only [check_quota_user, hr, if_true, reset_traffic]
      simp [hu]
    · simp only [check_quota_user, hr, if_false]
      simp
  refine ⟨by decide, by decide, ?_⟩
  intro now users name
  induction users with
  | nil => simp [check_quotas]
  | cons u rest ih =>
    by_cases hu : u.isActive
    · simp only [check_quotas, hu, if_true, List.mem_append]
      rintro (hmem | hmem)
      · exact hone now u hu name hmem
      · exact ih hmem
    · simp only [check_quotas, hu, if_false]
      exact fun hmem => ih (by simpa using hmem)

/-- C5, counterexample: when the denylist write fails, the in-memory
record is NOT created — the dict store sits after the file write in the
same `try:` block, so the raised exception skips it — and the address
does not appear in the active-ban list. -/
theorem ban_file_failure_counterexample :
    (temp_block_ip 0 false ⟨[], []⟩ "1.2.3.4" "alice" 86400).blockedIps = []
    ∧ (get_blocked_ips 0 (temp_block_ip 0 false ⟨[], []⟩ "1.2.3.4" "alice" 86400)).1 = [] := by
  decide

/-- C5, amended: a failed denylist write leaves the ban state entirely
unchanged (the failure is only logged; no BanRecord is created), while a
successful write stores the record with `unblock_time = now + seconds`. -/
theorem ban_file_failure_drops_record (now : Int) (st : BanState) (ip uname : String)
    (secs : Int) :
    temp_block_ip now false st ip uname secs = st
    ∧ ipLookup (temp_block_ip now true st ip uname secs).blockedIps ip
        = some ⟨now + secs, now, uname, "excess_connections"⟩ := by
  refine ⟨rfl, ?_⟩
  simp [temp_block_ip, ipLookup, ipSet, dictLookup_dictSet_self]

/-- C6, counterexample: banning the same address twice appends the
address to the denylist file both times — the code has no
already-present check — so the file holds two lines for it. -/
theorem ban_duplicate_line_counterexample :
    ((temp_block_ip 0 true (temp_block_ip 0 true ⟨[], []⟩ "1.2.3.4" "a" 86400)
        "1.2.3.4" "b" 86400).blockedFile.count "1.2.3.4") = 2 := by
  decide

/-- C6, amended: `_temp_block_ip` appends the address to the denylist
file unconditionally, so a repeated ban duplicates the line; only the
in-memory record is overwritten (the dict keeps one record per
address). -/
theorem ban_always_appends (n1 n2 : Int) (st : BanState) (ip u1 u2 : String)
    (s1 s2 : Int) :
    (temp_block_ip n2 true (temp_block_ip n1 true st ip u1 s1) ip u2 s2).blockedFile
      = st.blockedFile ++ [ip, ip]
    ∧ ipLookup (temp_block_ip n2 true (temp_block_ip n1 true st ip u1 s1) ip u2 s2).blockedIps
        ip = some ⟨n2 + s2, n2, u2, "excess_connections"⟩ := by
  constructor
  · simp [temp_block_ip]
  · simp [temp_block_ip, ipLookup, ipSet, dictLookup_dictSet_self]

/-- C7: `unblock_ip` on an address with no in-memory record and no
denylist line returns `True` and leaves the state untouched, and a
second consecutive call for the same address is always an exact no-op
that still returns `True`. -/
theorem unban_idempotent (st stNone : BanState) (ip : String)
    (hrec : ipLookup stNone.blockedIps ip = none)
    (hfile : ∀ l ∈ stNone.blockedFile, ¬ l = ip) :
    unblock_ip stNone ip = (stNone, true)
    ∧ unblock_ip (unblock_ip st ip).1 ip = ((unblock_ip st ip).1, true) := by
  constructor
  · obtain ⟨f, b⟩ := stNone
    have hrec' : dictLookup b ip = none := hrec
    simp only [unblock_ip, Prod.mk.injEq, and_true, BanState.mk.injEq]
    constructor
    · exact List.filter_eq_self.mpr (fun l hl => by simpa using hfile l hl)
    · refine List.filter_eq_self.mpr (fun p hp => ?_)
      simpa using (dictLookup_eq_none_iff b ip).mp hrec' p hp
  · obtain ⟨f, b⟩ := st
    simp only [unblock_ip, Prod.mk.injEq, and_true, BanState.mk.injEq]
    constructor
    · exact List.filter_eq_self.mpr (fun l hl => (List.mem_filter.mp hl).2)
    · exact List.filter_eq_self.mpr (fun p hp => (List.mem_filter.mp hp).2)

/-- C7, witness: unbanning an address that was never banned leaves a
concrete nonempty state unchanged and returns `True`. -/
theorem unban_idempotent_witness :
    unblock_ip ⟨["5.6.7.8"], [("5.6.7.8", ⟨100, 0, "bob", "excess_connections"⟩)]⟩ "1.2.3.4"
      = (⟨["5.6.7.8"], [("5.6.7.8", ⟨100, 0, "bob", "excess_connections"⟩)]⟩, true) := by
  exact (unban_idempotent ⟨[], []⟩
    ⟨["5.6.7.8"], [("5.6.7.8", ⟨100, 0, "bob", "excess_connections"⟩)]⟩ "1.2.3.4"
    (by decide) (by decide)).1

/-- C8: with a snapshot `(lrx, ltx)` stored for the username, the
observation returns `max 0 (rx - lrx) + max 0 (tx - ltx)`, updates the
snapshot to the new reading, and — for any observation whatsoever — the
returned delta is never negative. -/
theorem subsequent_observation_delta
    (snap : TrafficSnapshot) (u : UserRec) (rx tx lrx ltx : Int)
    (h : snapLookup snap u.username = some (lrx, ltx)) :
    (update_user_traffic_one snap u rx tx).delta = max 0 (rx - lrx) + max 0 (tx - ltx)
    ∧ snapLookup (update_user_traffic_one snap u rx tx).snap u.username = some (rx, tx)
    ∧ ∀ (s : TrafficSnapshot) (v : UserRec) (a b : Int),
        0 ≤ (update_user_traffic_one s v a b).delta := by
  refine ⟨?_, ?_, ?_⟩
  · simp [update_user_traffic_one, h]
  · simp [update_user_traffic_one, snapLookup, snapSet, dictLookup_dictSet_self]
  · intro s v a b
    have h1 : (0 : Int) ≤ max 0 (a - ((snapLookup s v.username).getD (0, 0)).1) :=
      le_max_left 0 _
    have h2 : (0 : Int) ≤ max 0 (b - ((snapLookup s v.username).getD (0, 0)).2) :=
      le_max_left 0 _
    simpa [update_user_traffic_one] using add_nonneg h1 h2

/-- C8, witness: a counter drop (tx falls from 10 to 5) yields a clamped
delta. -/
theorem subsequent_observation_delta_witness :
    snapLookup [("bob", (40, 10))] "bob" = some (40, 10)
    ∧ (update_user_traffic_one [("bob", (40, 10))]
        ⟨"bob", 0, 0, 0, none, none, 2, true, false, 0⟩ 100 5).delta
        = max 0 (100 - 40) + max 0 (5 - 10) := by
  refine ⟨rfl, ?_⟩
  exact (subsequent_observation_delta [("bob", (40, 10))]
    ⟨"bob", 0, 0, 0, none, none, 2, true, false, 0⟩ 100 5 40 10 rfl).1

/-- C9, counterexample: a user who is over quota AND expired at the
start of the tick, but whose scheduled reset is also due, has
`used_traffic` zeroed by the reset before the checks run, so the tick
records reason "expired" — not "traffic_exceeded" as the claim
states. -/
theorem tie_after_reset_counterexample :
    is_traffic_exceeded ⟨"dave", 1000, 1000, 30, some 0, some 100, 2, true, false, 0⟩ = true
    ∧ is_expired (31 * secondsPerDay)
        ⟨"dave", 1000, 1000, 30, some 0, some 100, 2, true, false, 0⟩ = true
    ∧ (check_quota_user (31 * secondsPerDay)
        ⟨"dave", 1000, 1000, 30, some 0, some 100, 2, true, false, 0⟩).reason
      = some "expired" := by
  decide

/-- C9, amended: for an active account with no scheduled reset due that
is simultaneously over quota and expired, the tick marks it inactive
and records "traffic_exceeded" — the `if/elif` gives traffic-exceeded
deterministic precedence. -/
theorem tie_reports_traffic_exceeded (now : Int) (u : UserRec)
    (hact : u.isActive = true)
    (hnr : needs_traffic_reset now u = false)
    (hex : is_traffic_exceeded u = true)
    (hexp : is_expired now u = true) :
    (check_quota_user now u).reason = some "traffic_exceeded"
    ∧ (check_quota_user now u).user.isActive = false := by
  simp [check_quota_user, hnr, hex]

/-- C9, witness for the amended theorem at a concrete over-quota,
expired account. -/
theorem tie_reports_traffic_exceeded_witness :
    (check_quota_user 200 ⟨"dan", 1000, 1000, 0, none, some 100, 2, true, false, 0⟩).reason
      = some "traffic_exceeded" := by
  exact (tie_reports_traffic_exceeded 200
    ⟨"dan", 1000, 1000, 0, none, some 100, 2, true, false, 0⟩ rfl rfl rfl rfl).1

/-- C10: when a positive delta pushes `used_traffic` to at least a
positive `max_traffic`, the traffic-update tick itself immediately
issues disconnect + lock and sets `is_active = false`,
`is_online = false`, `current_connections = 0`; and the quota tick
issues the same disconnect + lock pair for an online over-quota user,
so the pair can originate from either periodic task. -/
theorem traffic_tick_enforces_quota
    (snap : TrafficSnapshot) (u : UserRec) (rx tx : Int)
    (hmax : 0 < u.maxTraffic)
    (hdelta : 0 < (update_user_traffic_one snap u rx tx).delta)
    (hexceed : u.maxTraffic ≤ u.usedTraffic + (update_user_traffic_one snap u rx tx).delta) :
    (update_user_traffic_one snap u rx tx).calls
      = [AdapterCall.disconnectUser u.username, AdapterCall.lockUser u.username]
    ∧ (update_user_traffic_one snap u rx tx).user.isActive = false
    ∧ (update_user_traffic_one snap u rx tx).user.isOnline = false
    ∧ (update_user_traffic_one snap u rx tx).user.currentConnections = 0
    ∧ (update_user_traffic_one snap u rx tx).user.usedTraffic
        = u.usedTraffic + (update_user_traffic_one snap u rx tx).delta
    ∧ ∀ (now : Int) (v : UserRec), needs_traffic_reset now v = false →
        is_traffic_exceeded v = true → v.isOnline = true →
        (check_quota_user now v).calls
          = [AdapterCall.disconnectUser v.username, AdapterCall.lockUser v.username] := by
  simp only [update_user_traffic_one] at hdelta hexceed ⊢
  set q := (snapLookup snap u.username).getD (0, 0) with hq
  obtain ⟨lrx, ltx⟩ := q
  set d : Int := max 0 (rx - lrx) + max 0 (tx - ltx) with hd
  rw [if_pos hdelta]
  rw [if_pos (show 0 < u.maxTraffic ∧ u.maxTraffic ≤ u.usedTraffic + d from ⟨hmax, hexceed⟩)]
  refine ⟨rfl, rfl, rfl, rfl, rfl, ?_⟩
  intro now v hnr hex hon
  simp [check_quota_user, hnr, hex, hon]

/-- C10, witness: bob at 950 of 1000 bytes with a 100-byte delta is
disconnected and locked by the traffic tick. -/
theorem traffic_tick_enforces_quota_witness :
    (update_user_traffic_one [] ⟨"bob", 1000, 950, 0, none, none, 2, true, true, 1⟩ 100 0).calls
      = [AdapterCall.disconnectUser "bob", AdapterCall.lockUser "bob"] := by
  exact (traffic_tick_enforces_quota [] ⟨"bob", 1000, 950, 0, none, none, 2, true, true, 1⟩
    100 0 (by decide) (by decide) (by decide)).1

/-- C3: with more sessions than `max_connections` and distinct session
ids, the limiter selects exactly `N - M` sessions, the selection plus
the kept sessions partition the poll, and every selected session has a
strictly higher id than every kept one — the newest are selected. -/
theorem limiter_selects_newest (conns : List Conn) (M : Nat)
    (hM : M < conns.length)
    (hnd : (conns.map Conn.id).Nodup) :
    (connections_to_disconnect conns M).length = conns.length - M
    ∧ (connections_kept conns M).length = M
    ∧ conns.Perm (connections_kept conns M ++ connections_to_disconnect conns M)
    ∧ ∀ s ∈ connections_to_disconnect conns M, ∀ k ∈ connections_kept conns M,
        k.id < s.id := by
  have hperm : (sortConnsById conns).Perm conns := List.perm_insertionSort connLE conns
  have hlen : (sortConnsById conns).length = conns.length := hperm.length_eq
  have hsel : connections_to_disconnect conns M
      = (sortConnsById conns).drop ((sortConnsById conns).length - (conns.length - M)) := by
    simp only [connections_to_disconnect, if_pos hM]
  have hkept : connections_kept conns M
      = (sortConnsById conns).take ((sortConnsById conns).length - (conns.length - M)) := by
    simp only [connections_kept, if_pos hM]
  have hsplit : connections_kept conns M ++ connections_to_disconnect conns M
      = sortConnsById conns := by
    rw [hsel, hkept, List.take_append_drop]
  refine ⟨?_, ?_, ?_, ?_⟩
  · rw [hsel, List.length_drop]
    omega
  · rw [hkept, List.length_take]
    omega
  · rw [hsplit]
    exact hperm.symm
  · have hsorted : List.Pairwise connLE (sortConnsById conns) :=
      List.sorted_insertionSort connLE conns
    rw [← hsplit] at hsorted
    have hcross := (List.pairwise_append.mp hsorted).2.2
    have hndSorted : ((sortConnsById conns).map Conn.id).Nodup :=
      ((hperm.map Conn.id).nodup_iff).mpr hnd
    rw [← hsplit, List.map_append] at hndSorted
    have hdisj := (List.nodup_append.mp hndSorted).2.2
    intro s hs k hk
    have hle : k.id ≤ s.id := hcross k hk s hs
    have hne : ¬ k.id = s.id := by
      intro he
      exact hdisj (List.mem_map_of_mem Conn.id hk) (he ▸ List.mem_map_of_mem Conn.id hs)
    exact Nat.lt_of_le_of_ne hle hne

/-- C3, witness: the spec scenario — sessions 10, 11, 12 against
`max_connections = 2` — selects exactly one session. -/
theorem limiter_selects_newest_witness :
    (connections_to_disconnect [⟨10, "alice", some "9.9.9.1", 0⟩,
        ⟨12, "alice", some "9.9.9.3", 0⟩, ⟨11, "alice", some "9.9.9.2", 0⟩] 2).length
      = 3 - 2 := by
  have h := limiter_selects_newest [⟨10, "alice", some "9.9.9.1", 0⟩,
      ⟨12, "alice", some "9.9.9.3", 0⟩, ⟨11, "alice", some "9.9.9.2", 0⟩] 2
      (by decide) (by decide)
  simpa using h.1

/-- A binding found by lookup is an element of the item list. -/
theorem dictLookup_mem {β : Type} (m : List (String × β)) (k : String) (v : β)
    (h : dictLookup m k = some v) : (k, v) ∈ m := by
  induction m with
  | nil => simp [dictLookup] at h
  | cons p rest ih =>
    by_cases hp : p.1 = k
    · rw [dictLookup, if_pos hp] at h
      have hv : p.2 = v := by injection h
      have hpk : p = (k, v) := by
        rw [Prod.ext_iff]
        exact ⟨hp, hv⟩
      rw [← hpk]
      exact List.mem_cons_self p rest
    · rw [dictLookup, if_neg hp] at h
      exact List.mem_cons_of_mem _ (ih h)

/-- Blocking one address keeps every address blocked at the same tick
blocked until `now + 86400`. -/
theorem temp_block_ip_preserves (now : Int) (fileOk : Bool) (st : BanState)
    (ip2 uname ip : String) (info : BlockInfo)
    (h : ipLookup st.blockedIps ip = some info)
    (ht : info.unblockTime = now + 86400) :
    ∃ info', ipLookup (temp_block_ip now fileOk st ip2 uname 86400).blockedIps ip
        = some info' ∧ info'.unblockTime = now + 86400 := by
  cases fileOk with
  | false => exact ⟨info, h, ht⟩
  | true =>
    by_cases hip : ip = ip2
    · subst hip
      exact ⟨⟨now + 86400, now, uname, "excess_connections"⟩,
        by simp [temp_block_ip, ipLookup, ipSet, dictLookup_dictSet_self], rfl⟩
    · refine ⟨info, ?_, ht⟩
      simpa [temp_block_ip, ipLookup, ipSet, dictLookup_dictSet_ne _ _ _ _ hip] using h

/-- The disconnect loop never un-blocks: an address blocked until
`now + 86400` before the loop still is after it. -/
theorem process_disconnects_preserves (now : Int) (uname : String) (discOk : Nat → Bool)
    (fileOk : Bool) (conns : List Conn) (st : BanState) (ip : String) (info : BlockInfo)
    (h : ipLookup st.blockedIps ip = some info) (ht : info.unblockTime = now + 86400) :
    ∃ info', ipLookup (process_disconnects now uname discOk fileOk conns st).1.blockedIps ip
        = some info' ∧ info'.unblockTime = now + 86400 := by
  induction conns generalizing st info with
  | nil => exact ⟨info, h, ht⟩
  | cons c rest ih =>
    by_cases hid : c.id ≠ 0
    · by_cases hok : discOk c.id = true
      · cases hipc : c.clientIp with
        | none =>
          simp only [process_disconnects, hipc]
          rw [if_pos hid, if_pos hok]
          exact ih st info h ht
        | some ip2 =>
          simp only [process_disconnects, hipc]
          rw [if_pos hid, if_pos hok]
          obtain ⟨i2, h2, ht2⟩ := temp_block_ip_preserves now fileOk st ip2 uname ip info h ht
          exact ih _ i2 h2 ht2
      · simp only [process_disconnects]
        rw [if_pos hid, if_neg hok]
        exact ih st info h ht
    · simp only [process_disconnects]
      rw [if_neg hid]
      exact ih st info h ht

/-- Any selected session with an id, a successful disconnect, and a
client address leaves that address blocked until `now + 86400` when the
loop finishes. -/
theorem process_disconnects_blocks (now : Int) (uname : String) (discOk : Nat → Bool)
    (conns : List Conn) (st : BanState) (c : Conn) (ip : String)
    (hc : c ∈ conns) (hid : c.id ≠ 0) (hok : discOk c.id = true)
    (hip : c.clientIp = some ip) :
    ∃ info, ipLookup (process_disconnects now uname discOk true conns st).1.blockedIps ip
        = some info ∧ info.unblockTime = now + 86400 := by
  induction conns generalizing st with
  | nil => cases hc
  | cons d rest ih =>
    rcases List.mem_cons.mp hc with heq | hmem
    · subst heq
      simp only [process_disconnects, hip]
      rw [if_pos hid, if_pos hok]
      refine process_disconnects_preserves now uname discOk true rest _ ip
        ⟨now + 86400, now, uname, "excess_connections"⟩ ?_ rfl
      simp [temp_block_ip, ipLookup, ipSet, dictLookup_dictSet_self]
    · by_cases hd : d.id ≠ 0
      · by_cases hok2 : discOk d.id = true
        · cases hipd : d.clientIp with
          | none =>
            simp only [process_disconnects, hipd]
            rw [if_pos hd, if_pos hok2]
            exact ih st hmem
          | some ip2 =>
            simp only [process_disconnects, hipd]
            rw [if_pos hd, if_pos hok2]
            exact ih _ hmem
        · simp only [process_disconnects]
          rw [if_pos hd, if_neg hok2]
          exact ih st hmem
      · simp only [process_disconnects]
        rw [if_neg hd]
        exact ih st hmem

/-- A record whose unblock time is still ahead is surfaced by the scan
with its exact remaining time. -/
theorem get_blocked_ips_surfaces (now : Int) (st : BanState) (ip : String)
    (info : BlockInfo) (h : ipLookup st.blockedIps ip = some info)
    (hgt : now < info.unblockTime) :
    ∃ e ∈ (get_blocked_ips now st).1,
      e.ip = ip ∧ e.remainingSeconds = info.unblockTime - now := by
  refine ⟨⟨ip, info.username, info.blockedAt, info.unblockTime,
    info.unblockTime - now, info.reason⟩, ?_, rfl, rfl⟩
  simp only [get_blocked_ips]
  exact List.mem_filterMap.mpr ⟨(ip, info), dictLookup_mem _ _ _ h, by simp [hgt]⟩

/-- C4, counterexample: the claim as stated fails when the denylist
write fails.  Session 12 is selected and its disconnect succeeds (first
conjunct: its id is in the disconnected list), yet — the write having
raised — no BanRecord was stored and its client address 9.9.9.3 does
not appear in the active-ban list, which is empty (second conjunct). -/
theorem limiter_ban_write_failure_counterexample :
    (check_connection_limits_user 1000 (fun _ => true) false "alice"
        [⟨10, "alice", some "9.9.9.1", 0⟩, ⟨12, "alice", some "9.9.9.3", 0⟩,
         ⟨11, "alice", some "9.9.9.2", 0⟩]
        ⟨"alice", 0, 0, 0, none, none, 2, true, true, 3⟩ ⟨[], []⟩).2 = [12]
    ∧ (get_blocked_ips 1000 (check_connection_limits_user 1000 (fun _ => true) false "alice"
        [⟨10, "alice", some "9.9.9.1", 0⟩, ⟨12, "alice", some "9.9.9.3", 0⟩,
         ⟨11, "alice", some "9.9.9.2", 0⟩]
        ⟨"alice", 0, 0, 0, none, none, 2, true, true, 3⟩ ⟨[], []⟩).1).1 = [] := by
  decide

/-- C4, amended: a session the limiter selects whose disconnect succeeds
(id present, adapter reports success, client address present) AND whose
denylist write succeeds leaves its client address in the active-ban
list with `0 < remaining_seconds <= 86400` immediately after the tick;
and, for every state, the scan never surfaces an expired record and
prunes every expired record from the stored map.  The write-success
condition cannot be dropped: see the counterexample above. -/
theorem limiter_bans_disconnected (now : Int) (uname : String) (discOk : Nat → Bool)
    (conns : List Conn) (u : UserRec) (st : BanState) (c : Conn) (ip : String)
    (hM : u.maxConnections < conns.length)
    (hc : c ∈ connections_to_disconnect conns u.maxConnections)
    (hid : c.id ≠ 0) (hok : discOk c.id = true) (hip : c.clientIp = some ip) :
    (∃ e ∈ (get_blocked_ips now
        (check_connection_limits_user now discOk true uname conns u st).1).1,
        e.ip = ip ∧ 0 < e.remainingSeconds ∧ e.remainingSeconds ≤ 86400)
    ∧ ∀ (t : Int) (s : BanState),
        (∀ e ∈ (get_blocked_ips t s).1, 0 < e.remainingSeconds)
        ∧ ∀ p ∈ (get_blocked_ips t s).2.blockedIps, t < p.2.unblockTime := by
  constructor
  · have hrun : check_connection_limits_user now discOk true uname conns u st
        = process_disconnects now uname discOk true
            (connections_to_disconnect conns u.maxConnections) st := by
      simp only [check_connection_limits_user, if_pos hM]
    obtain ⟨info, hlk, htime⟩ := process_disconnects_blocks now uname discOk
      (connections_to_disconnect conns u.maxConnections) st c ip hc hid hok hip
    obtain ⟨e, hmem, heq, hrem⟩ := get_blocked_ips_surfaces now _ ip info hlk (by omega)
    exact ⟨e, by rwa [hrun], heq, by omega, by omega⟩
  · intro t s
    constructor
    · intro e he
      simp only [get_blocked_ips] at he
      obtain ⟨a, _, hfa⟩ := List.mem_filterMap.mp he
      by_cases hcond : a.2.unblockTime > t
      · rw [if_pos hcond] at hfa
        have h' := Option.some.inj hfa
        have : e.remainingSeconds = a.2.unblockTime - t := by
          rw [← h']
        omega
      · rw [if_neg hcond] at hfa
        cases hfa
    · intro p hp
      simp only [get_blocked_ips] at hp
      simpa using (List.mem_filter.mp hp).2

/-- C4, witness: after the limiter disconnects session 12, its address
9.9.9.3 is listed with remaining time in (0, 86400]. -/
theorem limiter_bans_disconnected_witness :
    ∃ e ∈ (get_blocked_ips 1000 (check_connection_limits_user 1000 (fun _ => true) true
        "alice"
        [⟨10, "alice", some "9.9.9.1", 0⟩, ⟨12, "alice", some "9.9.9.3", 0⟩,
         ⟨11, "alice", some "9.9.9.2", 0⟩]
        ⟨"alice", 0, 0, 0, none, none, 2, true, true, 3⟩ ⟨[], []⟩).1).1,
      e.ip = "9.9.9.3" ∧ 0 < e.remainingSeconds ∧ e.remainingSeconds ≤ 86400 := by
  exact (limiter_bans_disconnected 1000 "alice" (fun _ => true)
    [⟨10, "alice", some "9.9.9.1", 0⟩, ⟨12, "alice", some "9.9.9.3", 0⟩,
     ⟨11, "alice", some "9.9.9.2", 0⟩]
    ⟨"alice", 0, 0, 0, none, none, 2, true, true, 3⟩ ⟨[], []⟩
    ⟨12, "alice", some "9.9.9.3", 0⟩ "9.9.9.3"
    (by decide) (by decide) (by decide) (by decide) rfl).1

end OcservPanel
